import Mathlib

/-!
# Favorite store service (`Main.go`)

A shallow embedding of the six HTTP handlers of `Main.go` and of the route table
built in `main`, together with the parts of the Go standard library
(`strconv.Atoi`, `database/sql` cursors, `net/http` response writing,
`encoding/json` output of slices) and of the relational store that the handlers
observe.

* Go `int` is the 64-bit `int` of the platforms the service is built for; unsigned
  64-bit arithmetic in `strconv` is `Nat` with an explicit `% 2 ^ 64`, signed
  arithmetic is `Int` wrapped by `wrapInt`.
* A Go slice `[]Favorite` is `Option (List Favorite)`, `none` being the nil slice.
* A handler is a function from the database handle and the request to the response
  written, the store afterwards, the statements issued and whether the body was read.
-/

namespace BackTorre

/-! ## Data model -/

/-- Favorite represents a struct with the specified attributes. -/
structure Favorite where
  FavoriteID : Int
  SessionID : String
  UserName : String
  Name : String
  ProfessionalHeadline : String
  ImgURL : String
deriving DecidableEq, Repr

/-! ## JSON values written by the service -/

/-- Scalar JSON values occurring in the wire shape of a favorite. -/
inductive JVal where
  | num (n : Int)
  | str (s : String)
deriving DecidableEq, Repr

/-- A JSON object: its members in the order they are written. -/
abbrev JObj := List (String × JVal)

/-- The JSON documents the handlers write: `null`, one object, or an array of objects. -/
inductive Json where
  | null
  | obj (o : JObj)
  | arr (xs : List JObj)
deriving DecidableEq, Repr

/-- Output of `encoding/json` for a `Favorite`, following the struct tags. -/
def encodeFavorite (f : Favorite) : JObj :=
  [("favorite_id", .num f.FavoriteID),
   ("session_id", .str f.SessionID),
   ("user_name", .str f.UserName),
   ("name", .str f.Name),
   ("professional_headline", .str f.ProfessionalHeadline),
   ("img_url", .str f.ImgURL)]

/-- Output of `encoding/json` for a `[]Favorite`: a nil slice is written as `null`,
any other slice as an array. -/
def encodeFavorites : Option (List Favorite) → Json
  | none => .null
  | some fs => .arr (fs.map encodeFavorite)

/-- Output of `encoding/json` for the anonymous struct of the get-favorite response. -/
def encodeFavoriteID (favoriteID : Int) : Json :=
  .obj [("favorite_id", .num favoriteID)]

/-- Go `append(favorites, f)` on a slice that may be nil. -/
def goAppend (favorites : Option (List Favorite)) (f : Favorite) : Option (List Favorite) :=
  match favorites with
  | none => some [f]
  | some fs => some (fs ++ [f])

/-! ## `strconv.Atoi` -/

/-- The two sentinel errors of `strconv`: `ErrSyntax` and `ErrRange`. -/
inductive NumErrKind where
  | errSyntax
  | errRange
deriving DecidableEq, Repr

/-- Go `strconv.NumError`. -/
structure NumError where
  func : String
  num : String
  err : NumErrKind
deriving DecidableEq, Repr

/-- Size in bits of Go `int` (`strconv.IntSize`) on the 64-bit build of the service. -/
def IntSize : Nat := 64

/-- Conversion of an integer to a signed machine integer of `bits` bits (two's complement). -/
def wrapInt (bits : Nat) (x : Int) : Int :=
  (x + 2 ^ (bits - 1)) % 2 ^ bits - 2 ^ (bits - 1)

/-- Whether a byte of the string is an ASCII decimal digit. -/
def isDigit (c : Char) : Bool :=
  decide ('0'.toNat ≤ c.toNat) && decide (c.toNat ≤ '9'.toNat)

/-- Value of a digit byte, `c - '0'`. -/
def digitVal (c : Char) : Nat := c.toNat - '0'.toNat

/-- Length of a string in bytes, Go `len(s)`. -/
def byteLen (s : List Char) : Nat := (s.map Char.utf8Size).sum

/-- The digit loop of `strconv.ParseUint` for base 10; `maxVal` is `1<<bitSize - 1`.
Every byte that is not a decimal digit ends the loop with `ErrSyntax`; on overflow
the loop returns `maxVal` with `ErrRange`. -/
def parseUintLoop (maxVal : Nat) : List Char → Nat → Nat × Option NumErrKind
  | [], n => (n, none)
  | c :: cs, n =>
    if isDigit c then
      let d := digitVal c
      -- cutoff = maxUint64/10 + 1
      if n ≥ (2 ^ 64 - 1) / 10 + 1 then (maxVal, some .errRange)
      else
        let n10 := (n * 10) % 2 ^ 64
        let n1 := (n10 + d) % 2 ^ 64
        if n1 < n10 ∨ n1 > maxVal then (maxVal, some .errRange)
        else parseUintLoop maxVal cs n1
    else (0, some .errSyntax)

/-- The bound `maxVal := uint64(1)<<uint(bitSize) - 1` of `strconv.ParseUint`, in
unsigned 64-bit arithmetic. -/
def uintMaxVal (bitSize : Nat) : Nat :=
  ((2 ^ bitSize) % 2 ^ 64 + 2 ^ 64 - 1) % 2 ^ 64

/-- Go `strconv.ParseUint(s, 10, 0)` on a platform whose `int` has `intSize` bits:
the value and the error returned. -/
def ParseUint (intSize : Nat) (s : List Char) : Nat × Option NumErrKind :=
  if s = [] then (0, some .errSyntax)
  else parseUintLoop (uintMaxVal intSize) s 0

/-- Go `strconv.ParseInt(s, 10, 0)` on a platform whose `int` has `intSize` bits:
the value and the error returned. -/
def ParseInt (intSize : Nat) (s : List Char) : Int × Option NumErrKind :=
  if s = [] then (0, some .errSyntax)
  else
    -- Pick off leading sign.
    let neg : Bool := decide (s.head? = some '-')
    let s1 := if s.head? = some '+' ∨ s.head? = some '-' then s.tail else s
    -- Convert unsigned and check range.
    let un := (ParseUint intSize s1).1
    let err := (ParseUint intSize s1).2
    if err = some .errSyntax then (0, err)
    else
      let cutoff : Nat := (2 ^ (intSize - 1)) % 2 ^ 64
      if neg = false ∧ un ≥ cutoff then (wrapInt 64 (cutoff - 1 : Nat), some .errRange)
      else if neg = true ∧ un > cutoff then (-wrapInt 64 cutoff, some .errRange)
      else
        let n := wrapInt 64 un
        (if neg then wrapInt 64 (-n) else n, none)

/-- The digit loop of the fast path of `strconv.Atoi`: `n = n*10 + int(ch)` in the
arithmetic of an `int` of `intSize` bits; `none` when a byte is not a digit. -/
def atoiFastLoop (intSize : Nat) : List Char → Int → Option Int
  | [], n => some n
  | ch :: rest, n =>
    if isDigit ch then
      atoiFastLoop intSize rest (wrapInt intSize (wrapInt intSize (n * 10) + digitVal ch))
    else none

/-- Go `strconv.Atoi` on a platform whose `int` has `intSize` bits. -/
def Atoi (intSize : Nat) (s : String) : Except NumError Int :=
  let sLen := byteLen s.data
  if (intSize = 32 ∧ 0 < sLen ∧ sLen < 10) ∨ (intSize = 64 ∧ 0 < sLen ∧ sLen < 19) then
    -- Fast path for small integers that fit int type.
    let s0 := s.data
    let signed : Bool := decide (s0.head? = some '-' ∨ s0.head? = some '+')
    let digits := if signed then s0.tail else s0
    if signed = true ∧ digits = [] then .error ⟨"Atoi", s, .errSyntax⟩
    else
      match atoiFastLoop intSize digits 0 with
      | none => .error ⟨"Atoi", s, .errSyntax⟩
      | some n => .ok (if s0.head? = some '-' then wrapInt intSize (-n) else n)
  else
    -- Slow path for invalid, big, or underscored integers.
    match ParseInt intSize s.data with
    | (i64, none) => .ok (wrapInt intSize i64)
    | (_, some k) => .error ⟨"Atoi", s, k⟩

/-! ## `net/http`: requests and response writing -/

/-- The text written by `http.Error`: the `Error()` text of the error passed to it. -/
inductive ErrorText where
  /-- text reported by the database driver or by the JSON decoder, or a literal -/
  | msg (text : String)
  /-- text of `(*strconv.NumError).Error()` -/
  | numError (e : NumError)
deriving DecidableEq, Repr

/-- What a handler wrote after the header. -/
inductive Body where
  | empty
  /-- `fmt.Fprintln(w, error)` of `http.Error` -/
  | text (t : ErrorText)
  /-- `json.NewEncoder(w).Encode(v)` -/
  | json (v : Json)
deriving DecidableEq, Repr

/-- State of an `http.ResponseWriter`: the status sent (200 unless `WriteHeader` is
called with another code), the header map and the body. -/
structure ResponseWriter where
  status : Nat := 200
  header : List (String × String) := []
  body : Body := .empty
deriving DecidableEq, Repr

/-- Go `h.Set(key, value)` on a header map. -/
def headerSet (h : List (String × String)) (key value : String) : List (String × String) :=
  (h.filter fun kv => kv.1 != key) ++ [(key, value)]

/-- Go `w.Header().Set(key, value)`. -/
def ResponseWriter.Set (w : ResponseWriter) (key value : String) : ResponseWriter :=
  { w with header := headerSet w.header key value }

/-- Go `w.Header().Get(key)`, `none` when the header is absent. -/
def ResponseWriter.Get (w : ResponseWriter) (key : String) : Option String :=
  w.header.lookup key

/-- Go `w.WriteHeader(code)`. -/
def ResponseWriter.WriteHeader (w : ResponseWriter) (code : Nat) : ResponseWriter :=
  { w with status := code }

/-- Go `http.Error(w, error, code)`: sets the content type to plain text, writes the
status and then the error text. -/
def httpError (w : ResponseWriter) (error : ErrorText) (code : Nat) : ResponseWriter :=
  let w := w.Set "Content-Type" "text/plain; charset=utf-8"
  let w := w.Set "X-Content-Type-Options" "nosniff"
  let w := w.WriteHeader code
  { w with body := .text error }

/-- Go `http.NotFound(w, r)`. -/
def httpNotFound (w : ResponseWriter) : ResponseWriter :=
  httpError w (.msg "404 page not found") 404

/-- Go `json.NewEncoder(w).Encode(v)` on a writer whose status was not written yet. -/
def jsonEncode (w : ResponseWriter) (v : Json) : ResponseWriter :=
  { w with body := .json v }

/-- The parts of an `*http.Request` the handlers read. `body` is the outcome of
`json.NewDecoder(r.Body).Decode(&fav)` on the request body: the decoding error, or the
record decoded (with `favorite_id` as the client sent it, zero when absent). -/
structure Request where
  method : String := "GET"
  path : String := "/"
  /-- route variables, `mux.Vars(r)` -/
  vars : List (String × String) := []
  /-- decoded query parameters, `r.URL.Query()` -/
  query : List (String × String) := []
  body : Except String Favorite := .error "EOF"

/-- Go `mux.Vars(r)[key]`: the empty string when the variable is absent. -/
def Request.Var (r : Request) (key : String) : String :=
  (r.vars.lookup key).getD ""

/-- Go `r.URL.Query().Get(key)`: the first value of the key, or the empty string. -/
def Request.QueryGet (r : Request) (key : String) : String :=
  (r.query.lookup key).getD ""

/-! ## The relational store -/

/-- Modelled from the spec: the table `favorites(favorite_id PK, session_id, user_name,
name, professional_headline, img_url)`, whose declaration is not part of the source.
`rows` are the rows in storage order; `nextId` is the value storage assigns to
`favorite_id` on the next insert. -/
structure Store where
  rows : List Favorite
  nextId : Int
deriving DecidableEq, Repr

/-- The statements the handlers issue, with their bound parameters. -/
inductive Stmt where
  /-- `SELECT * FROM favorites` -/
  | selectAll
  /-- `SELECT * FROM favorites WHERE session_id = $1` -/
  | selectBySession (sessionID : String)
  /-- `SELECT favorite_id FROM favorites WHERE session_id = $1 AND name = $2 AND img_url = $3` -/
  | selectFavoriteID (sessionID name imgURL : String)
  /-- `INSERT INTO favorites (...) VALUES ($1, $2, $3, $4, $5) RETURNING favorite_id` -/
  | insert (sessionID userName name professionalHeadline imgURL : String)
  /-- `UPDATE favorites SET ... WHERE favorite_id = $6` -/
  | update (sessionID userName name professionalHeadline imgURL : String) (id : Int)
  /-- `DELETE FROM favorites WHERE favorite_id = $1` -/
  | delete (id : Int)
deriving DecidableEq, Repr

/-- Result set of `SELECT * FROM favorites`. -/
def Store.selectAll (s : Store) : List Favorite :=
  s.rows

/-- Result set of `SELECT * FROM favorites WHERE session_id = $1`. -/
def Store.selectBySession (s : Store) (sessionID : String) : List Favorite :=
  s.rows.filter fun f => f.SessionID == sessionID

/-- Result set of
`SELECT favorite_id FROM favorites WHERE session_id = $1 AND name = $2 AND img_url = $3`. -/
def Store.selectFavoriteID (s : Store) (sessionID name imgURL : String) : List Int :=
  (s.rows.filter fun f =>
    f.SessionID == sessionID && f.Name == name && f.ImgURL == imgURL).map
      fun f => f.FavoriteID

/-- Modelled from the spec: `INSERT ... RETURNING favorite_id` on the table whose
`favorite_id` is generated by storage and is its primary key. Storage assigns
`nextId`; the insert is rejected when that value is already the key of a row. -/
def Store.insert (s : Store) (sessionID userName name professionalHeadline imgURL : String) :
    Except String (Int × Store) :=
  if s.rows.any (fun f => f.FavoriteID == s.nextId) then
    .error "pq: duplicate key value violates unique constraint"
  else
    .ok (s.nextId,
      { rows := s.rows ++ [⟨s.nextId, sessionID, userName, name, professionalHeadline, imgURL⟩],
        nextId := s.nextId + 1 })

/-- Effect of `UPDATE favorites SET session_id = $1, user_name = $2, name = $3,
professional_headline = $4, img_url = $5 WHERE favorite_id = $6`. -/
def Store.update (s : Store) (sessionID userName name professionalHeadline imgURL : String)
    (id : Int) : Store :=
  { s with rows := s.rows.map fun f =>
      if f.FavoriteID = id then
        { f with SessionID := sessionID, UserName := userName, Name := name,
                 ProfessionalHeadline := professionalHeadline, ImgURL := imgURL }
      else f }

/-- Effect of `DELETE FROM favorites WHERE favorite_id = $1`. -/
def Store.delete (s : Store) (id : Int) : Store :=
  { s with rows := s.rows.filter fun f => f.FavoriteID != id }

/-! ## `database/sql` -/

/-- How the store answers the next operation on the handle. -/
inductive Fault where
  /-- the operation runs to completion -/
  | none
  /-- `db.Query`, `db.QueryRow` or `db.Exec` reports the error when the statement is issued -/
  | atQuery (msg : String)
  /-- `rows.Scan` reports the error on the row with index `k` -/
  | atScan (k : Nat) (msg : String)
  /-- `rows.Next` reports the error after `k` rows were delivered: it returns false
  and `rows.Err()` holds the error -/
  | atNext (k : Nat) (msg : String)
deriving DecidableEq, Repr

/-- The handle `db *sql.DB`: the store behind it and how it answers. -/
structure DB where
  store : Store
  fault : Fault := .none
deriving DecidableEq, Repr

/-- Go `*sql.Rows`: the rows `Next` will deliver, each with the outcome of its `Scan`,
and the error `rows.Err()` reports once `Next` has returned false. -/
structure Rows (α : Type) where
  items : List (Except String α)
  err : Option String

/-- Marks the `Scan` of the row with index `k` as failing. -/
def failScanAt {α : Type} (k : Nat) (msg : String) : List α → List (Except String α)
  | [] => []
  | a :: rest =>
    match k with
    | 0 => .error msg :: rest.map .ok
    | k + 1 => .ok a :: failScanAt k msg rest

/-- Go `db.Query(...)` for a statement whose result set is `result`. -/
def DB.Query {α : Type} (db : DB) (result : List α) : Except String (Rows α) :=
  match db.fault with
  | .none => .ok ⟨result.map .ok, Option.none⟩
  | .atQuery msg => .error msg
  | .atScan k msg => .ok ⟨failScanAt k msg result, Option.none⟩
  | .atNext k msg => .ok ⟨(result.take k).map .ok, some msg⟩

/-- Go `db.Exec(...)`: the error reported, if any. -/
def DB.Exec (db : DB) : Option String :=
  match db.fault with
  | .atQuery msg => some msg
  | _ => Option.none

/-- The error of `(*sql.Row).Scan`: `sql.ErrNoRows` or another error. -/
inductive RowErr where
  | ErrNoRows
  | other (msg : String)
deriving DecidableEq, Repr

/-- Go `err.Error()` for the error of `(*sql.Row).Scan`. -/
def RowErr.Error : RowErr → String
  | .ErrNoRows => "sql: no rows in result set"
  | .other msg => msg

/-- Go `db.QueryRow(...).Scan(&v)` for a statement whose result set is `result`:
the query error if there is one; without a first row the error of `rows.Err()` or
else `sql.ErrNoRows`; otherwise the outcome of scanning the first row. -/
def DB.QueryRowScan {α : Type} (db : DB) (result : List α) : Except RowErr α :=
  match db.Query result with
  | .error msg => .error (.other msg)
  | .ok rows =>
    match rows.items with
    | [] =>
      match rows.err with
      | some msg => .error (.other msg)
      | Option.none => .error .ErrNoRows
    | .error msg :: _ => .error (.other msg)
    | .ok v :: _ => .ok v

/-- The loop `for rows.Next() { rows.Scan(...); favorites = append(favorites, f) }` of
the two list handlers: the first `Scan` error, or the slice built when `Next` returns
false. The loop does not consult `rows.Err()`. -/
def scanLoop : List (Except String Favorite) → Option (List Favorite) →
    Except String (Option (List Favorite))
  | [], favorites => .ok favorites
  | .error err :: _, _ => .error err
  | .ok f :: rest, favorites => scanLoop rest (goAppend favorites f)

/-! ## The handlers of `Main.go` -/

/-- What serving one request did: the response written, the store afterwards, the
statements issued to the store in order, and whether the request body was read. -/
structure Result where
  w : ResponseWriter
  store : Store
  stmts : List Stmt
  bodyRead : Bool
deriving DecidableEq, Repr

/-- Go `enableCors`. -/
def enableCors (w : ResponseWriter) : ResponseWriter :=
  w.Set "Access-Control-Allow-Origin" "*"

/-- Handler of `GET /favorites/get-favorite`. -/
def getFavoriteBySessionNameURLHandler (db : DB) (r : Request) : Result :=
  let w := enableCors {}
  -- Parse query parameters
  let sessionID := r.QueryGet "session_id"
  let name := r.QueryGet "name"
  let imageURL := r.QueryGet "image_url"
  -- Query the database to find the matching favorite
  let stmts := [Stmt.selectFavoriteID sessionID name imageURL]
  match db.QueryRowScan (db.store.selectFavoriteID sessionID name imageURL) with
  | .error .ErrNoRows =>
    -- Handle the case where no matching favorite is found
    ⟨httpNotFound w, db.store, stmts, false⟩
  | .error (.other msg) =>
    -- Handle other database errors
    ⟨httpError w (.msg msg) 500, db.store, stmts, false⟩
  | .ok favoriteID =>
    -- Return the favorite ID as JSON response
    let w := w.Set "Content-Type" "application/json"
    ⟨jsonEncode w (encodeFavoriteID favoriteID), db.store, stmts, false⟩

/-- Handler of `GET /favorites`. -/
def getAllFavoritesHandler (db : DB) (_r : Request) : Result :=
  let w := enableCors {}
  let stmts := [Stmt.selectAll]
  match db.Query db.store.selectAll with
  | .error msg => ⟨httpError w (.msg msg) 500, db.store, stmts, false⟩
  | .ok rows =>
    match scanLoop rows.items none with
    | .error msg => ⟨httpError w (.msg msg) 500, db.store, stmts, false⟩
    | .ok favorites =>
      let w := w.Set "Content-Type" "application/json"
      ⟨jsonEncode w (encodeFavorites favorites), db.store, stmts, false⟩

/-- Handler of `POST /favorites`. -/
def createFavoriteHandler (db : DB) (r : Request) : Result :=
  let w := enableCors {}
  match r.body with
  | .error msg => ⟨httpError w (.msg msg) 400, db.store, [], true⟩
  | .ok fav =>
    let stmts :=
      [Stmt.insert fav.SessionID fav.UserName fav.Name fav.ProfessionalHeadline fav.ImgURL]
    match db.fault with
    | .atQuery msg => ⟨httpError w (.msg msg) 500, db.store, stmts, true⟩
    | _ =>
      match db.store.insert fav.SessionID fav.UserName fav.Name fav.ProfessionalHeadline
          fav.ImgURL with
      | .error msg => ⟨httpError w (.msg msg) 500, db.store, stmts, true⟩
      | .ok (id, store) =>
        match db.QueryRowScan [id] with
        | .error err => ⟨httpError w (.msg err.Error) 500, store, stmts, true⟩
        | .ok favoriteID =>
          let fav := { fav with FavoriteID := favoriteID }
          let w := w.Set "Content-Type" "application/json"
          ⟨jsonEncode w (.obj (encodeFavorite fav)), store, stmts, true⟩

/-- Handler of `GET /favorites/by-session/{session_id}`. -/
def getFavoritesBySessionHandler (db : DB) (r : Request) : Result :=
  let w := enableCors {}
  let sessionID := r.Var "session_id"
  let stmts := [Stmt.selectBySession sessionID]
  match db.Query (db.store.selectBySession sessionID) with
  | .error msg => ⟨httpError w (.msg msg) 500, db.store, stmts, false⟩
  | .ok rows =>
    match scanLoop rows.items none with
    | .error msg => ⟨httpError w (.msg msg) 500, db.store, stmts, false⟩
    | .ok favorites =>
      let w := w.Set "Content-Type" "application/json"
      ⟨jsonEncode w (encodeFavorites favorites), db.store, stmts, false⟩

/-- Handler of `PUT /favorites/{id}`. -/
def updateFavoriteHandler (db : DB) (r : Request) : Result :=
  let w := enableCors {}
  let idStr := r.Var "id"
  match Atoi IntSize idStr with
  | .error err => ⟨httpError w (.numError err) 400, db.store, [], false⟩
  | .ok id =>
    match r.body with
    | .error msg => ⟨httpError w (.msg msg) 400, db.store, [], true⟩
    | .ok fav =>
      let stmts :=
        [Stmt.update fav.SessionID fav.UserName fav.Name fav.ProfessionalHeadline fav.ImgURL id]
      match db.Exec with
      | some msg => ⟨httpError w (.msg msg) 500, db.store, stmts, true⟩
      | none =>
        ⟨w.WriteHeader 204,
          db.store.update fav.SessionID fav.UserName fav.Name fav.ProfessionalHeadline
            fav.ImgURL id,
          stmts, true⟩

/-- Handler of `DELETE /favorites/{id}`. -/
def deleteFavoriteHandler (db : DB) (r : Request) : Result :=
  let w := enableCors {}
  let idStr := r.Var "id"
  match Atoi IntSize idStr with
  | .error err => ⟨httpError w (.numError err) 400, db.store, [], false⟩
  | .ok id =>
    let stmts := [Stmt.delete id]
    match db.Exec with
    | some msg => ⟨httpError w (.msg msg) 500, db.store, stmts, false⟩
    | none => ⟨w.WriteHeader 204, db.store.delete id, stmts, false⟩

/-! ## The route table of `main` and the router -/

/-- Removes the leading text `lead` from `p`; `none` when `p` does not start with it. -/
def dropLead : List Char → List Char → Option (List Char)
  | [], p => some p
  | _ :: _, [] => none
  | a :: lead, b :: p => if a = b then dropLead lead p else none

/-- A `mux` path template of the shapes used in `main`: literal text, optionally
followed by one variable `{name:class+}` that ends the path. The regular expression
compiled from it is `^literal(class+)$`. -/
structure Template where
  literal : String
  var : Option (String × (Char → Bool))

/-- The character class `[^/]`, the pattern of a variable declared without one. -/
def notSlash (c : Char) : Bool := c != '/'

/-- Match of the request path against the regular expression of a template: the
route variables on success. -/
def Template.matchPath (t : Template) (path : String) : Option (List (String × String)) :=
  match dropLead t.literal.data path.data with
  | none => none
  | some rest =>
    match t.var with
    | none => if rest = [] then some [] else none
    | some (name, cls) =>
      if rest ≠ [] ∧ rest.all cls then some [(name, String.mk rest)] else none

/-- A route registered with `r.HandleFunc(template, handler).Methods(method)`. -/
structure Route where
  template : Template
  method : String
  handler : DB → Request → Result

/-- The routes registered in `main`, in registration order. -/
def main : List Route :=
  [ ⟨⟨"/favorites/by-session/", some ("session_id", notSlash)⟩, "GET",
      getFavoritesBySessionHandler⟩,
    ⟨⟨"/favorites", none⟩, "GET", getAllFavoritesHandler⟩,
    ⟨⟨"/favorites", none⟩, "POST", createFavoriteHandler⟩,
    ⟨⟨"/favorites/", some ("id", isDigit)⟩, "PUT", updateFavoriteHandler⟩,
    ⟨⟨"/favorites/", some ("id", isDigit)⟩, "DELETE", deleteFavoriteHandler⟩,
    ⟨⟨"/favorites/get-favorite", none⟩, "GET", getFavoriteBySessionNameURLHandler⟩ ]

/-- Outcome of `(*mux.Router).Match`. -/
inductive RouteMatch where
  | found (route : Route) (vars : List (String × String))
  /-- `ErrMethodMismatch`: some route matched the path but not the method -/
  | methodMismatch
  /-- `ErrNotFound` -/
  | notFound

/-- Go `(*mux.Router).Match`: the first route whose path and method matchers both
match; `mismatch` records that an earlier route matched the path but not the method. -/
def routerMatch : List Route → Request → Bool → RouteMatch
  | [], _, mismatch => if mismatch then .methodMismatch else .notFound
  | route :: rest, req, mismatch =>
    match route.template.matchPath req.path with
    | none => routerMatch rest req mismatch
    | some vars =>
      if route.method = req.method then .found route vars
      else routerMatch rest req true

/-- Splits a path at every `/`. -/
def splitSlash : List Char → List (List Char)
  | [] => [[]]
  | c :: cs =>
    if c = '/' then [] :: splitSlash cs
    else
      match splitSlash cs with
      | [] => [[c]]
      | seg :: segs => (c :: seg) :: segs

/-- Whether the segments after the leading slash are in canonical form: no `.` or
`..` segment and no empty segment other than the last one. -/
def cleanSegments : List (List Char) → Bool
  | [] => true
  | [last] => last != ['.'] && last != ['.', '.']
  | seg :: segs => seg != [] && seg != ['.'] && seg != ['.', '.'] && cleanSegments segs

/-- Whether `cleanPath(p) == p` for the `cleanPath` of `net/http` and `mux`: the path
starts with a slash and is in canonical form. -/
def isCleanPath (p : List Char) : Bool :=
  match p with
  | '/' :: rest => cleanSegments (splitSlash rest)
  | _ => false

/-- How the service answered a request: with a redirect to the canonical form of the
path, issued in front of the handlers (its status code and `Location` header are
chosen by the HTTP layer and are not represented), or with the response written. -/
inductive Answer where
  | redirect
  | written (w : ResponseWriter)
deriving DecidableEq, Repr

/-- The status code of a written response; `none` for a redirect, whose code is not
represented. -/
def Answer.status? : Answer → Option Nat
  | .redirect => none
  | .written w => some w.status

/-- What the service as wired in `main` did with a request: its answer, the store
afterwards, the statements issued and whether the body was read. -/
structure Served where
  answer : Answer
  store : Store
  stmts : List Stmt
  bodyRead : Bool
deriving DecidableEq, Repr

/-- What a handler did, as the outcome of the service. -/
def Served.ofResult (res : Result) : Served :=
  ⟨.written res.w, res.store, res.stmts, res.bodyRead⟩

/-- The service as wired in `main` (`http.Handle("/", corsHandler(r))`), for a request
without an `Origin` header. A path that is not in canonical form is answered with a
redirect to the cleaned path before any handler runs. Otherwise the CORS wrapper
answers an `OPTIONS` request itself, writing nothing (an empty 200), and passes every
other request to the router, which dispatches to the matching handler with the route
variables, or answers 405 on a method mismatch and 404 when no route matches. -/
def ServeHTTP (db : DB) (req : Request) : Served :=
  if isCleanPath req.path.data then
    if req.method = "OPTIONS" then
      ⟨.written {}, db.store, [], false⟩
    else
      match routerMatch main req false with
      | .found route vars => Served.ofResult (route.handler db { req with vars := vars })
      | .methodMismatch =>
        ⟨.written (({} : ResponseWriter).WriteHeader 405), db.store, [], false⟩
      | .notFound => ⟨.written (httpNotFound {}), db.store, [], false⟩
  else
    ⟨.redirect, db.store, [], false⟩

/-! ## Reading responses -/

/-- The rows a list response carries: the elements of the JSON array in its body
(none when the body is not an array). -/
def listedRows (w : ResponseWriter) : List JObj :=
  match w.body with
  | .json (.arr xs) => xs
  | _ => []

/-- The slice the scan loop builds from a result set delivered without error: nil
when no row is delivered. -/
def sliceOf (rows : List Favorite) : Option (List Favorite) :=
  if rows = [] then none else some rows

/-- The request paired with a handle that answers without error. -/
def healthy (store : Store) : DB := ⟨store, .none⟩

/-- Value of a string of decimal digits. -/
def decimalValue (s : List Char) : Nat :=
  s.foldl (fun n c => 10 * n + digitVal c) 0

/-- The largest Go `int` of the 64-bit build, `1<<63 - 1`. -/
def maxInt : Nat := 2 ^ 63 - 1

/-- The rule the handlers follow for the `Content-Type` header: `application/json` on
a 200 response, `text/plain; charset=utf-8` on the 400, 404 and 500 responses written
by `http.Error`, and no `Content-Type` on a 204 response. -/
def contentTypeRule (w : ResponseWriter) : Prop :=
  (w.status = 200 ∧ w.Get "Content-Type" = some "application/json") ∨
  (w.status = 204 ∧ w.Get "Content-Type" = none) ∨
  ((w.status = 400 ∨ w.status = 404 ∨ w.status = 500) ∧
    w.Get "Content-Type" = some "text/plain; charset=utf-8")

/-! ## Sample data -/

/-- A sample row. -/
def alice : Favorite := ⟨1, "s1", "u1", "Alice", "Engineer", "http://x/img.png"⟩

/-- A second sample row, of another session. -/
def bob : Favorite := ⟨2, "s2", "u2", "Bob", "Designer", "http://x/bob.png"⟩

/-- A third sample row, of the same session as the first. -/
def dave : Favorite := ⟨3, "s1", "u1", "Dave", "Analyst", "http://x/dave.png"⟩

/-- A store holding the three sample rows. -/
def sampleStore : Store := ⟨[alice, bob, dave], 4⟩

/-- An empty store. -/
def emptyStore : Store := ⟨[], 1⟩

/-- A replacement field set, carrying a `favorite_id` of its own. -/
def carol : Favorite := ⟨77, "s3", "u3", "Carol", "Writer", "http://x/carol.png"⟩

/-! ## Lemmas on the scan loop and the encoder -/

@[simp] theorem status_httpError (w : ResponseWriter) (t : ErrorText) (code : Nat) :
    (httpError w t code).status = code := rfl

@[simp] theorem status_jsonEncode (w : ResponseWriter) (v : Json) :
    (jsonEncode w v).status = w.status := rfl

@[simp] theorem status_Set (w : ResponseWriter) (key value : String) :
    (w.Set key value).status = w.status := rfl

@[simp] theorem status_WriteHeader (w : ResponseWriter) (code : Nat) :
    (w.WriteHeader code).status = code := rfl

@[simp] theorem status_enableCors (w : ResponseWriter) :
    (enableCors w).status = w.status := rfl

@[simp] theorem healthy_store (store : Store) : (healthy store).store = store := rfl

theorem scanLoop_ok (rows : List Favorite) (acc : List Favorite) :
    scanLoop (rows.map .ok) (some acc) = .ok (some (acc ++ rows)) := by
  induction rows generalizing acc with
  | nil => simp [scanLoop]
  | cons f rest ih => simp [scanLoop, goAppend, ih]

theorem scanLoop_ok_nil (rows : List Favorite) :
    scanLoop (rows.map .ok) none = .ok (sliceOf rows) := by
  cases rows with
  | nil => simp [scanLoop, sliceOf]
  | cons f rest =>
    have h := scanLoop_ok rest [f]
    simp [scanLoop, goAppend, sliceOf, h]

theorem lookup_session_id (f : Favorite) :
    (encodeFavorite f).lookup "session_id" = some (.str f.SessionID) := by
  rfl

theorem lookup_favorite_id (f : Favorite) :
    (encodeFavorite f).lookup "favorite_id" = some (.num f.FavoriteID) := by
  rfl

theorem listedRows_encode (w : ResponseWriter) (rows : List Favorite) :
    listedRows (jsonEncode w (encodeFavorites (sliceOf rows))) = rows.map encodeFavorite := by
  cases rows with
  | nil => simp [listedRows, jsonEncode, encodeFavorites, sliceOf]
  | cons f rest => simp [listedRows, jsonEncode, encodeFavorites, sliceOf]

theorem getAll_healthy (store : Store) (r : Request) :
    getAllFavoritesHandler (healthy store) r =
      ⟨jsonEncode ((enableCors {}).Set "Content-Type" "application/json")
          (encodeFavorites (sliceOf store.rows)), store, [Stmt.selectAll], false⟩ := by
  simp [getAllFavoritesHandler, healthy, DB.Query, Store.selectAll, scanLoop_ok_nil]

theorem getBySession_healthy (store : Store) (r : Request) :
    getFavoritesBySessionHandler (healthy store) r =
      ⟨jsonEncode ((enableCors {}).Set "Content-Type" "application/json")
          (encodeFavorites (sliceOf (store.selectBySession (r.Var "session_id")))),
        store, [Stmt.selectBySession (r.Var "session_id")], false⟩ := by
  simp [getFavoritesBySessionHandler, healthy, DB.Query, scanLoop_ok_nil]

/-! ## Claims -/

/-- C1: on every store (answering both queries without error) and for every session id
S, the rows of list-by-session for S are exactly the rows of list-all on the same
store whose `session_id` is S, with the same field values: both respond 200, the
listed rows are the list-all rows filtered by `session_id = S`, every listed row has
`session_id = S` and is a list-all row, and every list-all row with `session_id = S`
is listed. -/
theorem C1_list_by_session_is_filter_of_list_all (store : Store) (r r0 : Request) :
    (getFavoritesBySessionHandler (healthy store) r).w.status = 200 ∧
    (getAllFavoritesHandler (healthy store) r0).w.status = 200 ∧
    listedRows (getFavoritesBySessionHandler (healthy store) r).w =
      (listedRows (getAllFavoritesHandler (healthy store) r0).w).filter
        (fun o => decide (o.lookup "session_id" = some (.str (r.Var "session_id")))) ∧
    (∀ o ∈ listedRows (getFavoritesBySessionHandler (healthy store) r).w,
      o.lookup "session_id" = some (.str (r.Var "session_id")) ∧
      o ∈ listedRows (getAllFavoritesHandler (healthy store) r0).w) ∧
    (∀ o ∈ listedRows (getAllFavoritesHandler (healthy store) r0).w,
      o.lookup "session_id" = some (.str (r.Var "session_id")) →
      o ∈ listedRows (getFavoritesBySessionHandler (healthy store) r).w) := by
  have hfilter : (store.selectBySession (r.Var "session_id")).map encodeFavorite =
      (store.rows.map encodeFavorite).filter
        (fun o => decide (o.lookup "session_id" = some (.str (r.Var "session_id")))) := by
    unfold Store.selectBySession
    induction store.rows with
    | nil => simp
    | cons f rest ih =>
      by_cases h : f.SessionID = r.Var "session_id"
      · simp [List.filter_cons, lookup_session_id, h, ih]
      · simp [List.filter_cons, lookup_session_id, h, ih]
  rw [getAll_healthy, getBySession_healthy]
  simp only [listedRows_encode]
  refine ⟨rfl, rfl, hfilter, ?_, ?_⟩
  · intro o ho
    rw [hfilter, List.mem_filter] at ho
    exact ⟨by simpa using ho.2, ho.1⟩
  · intro o ho hs
    rw [hfilter, List.mem_filter]
    exact ⟨ho, by simpa using hs⟩

/-- Witness of C1 on the sample store: the row of session `s2` is listed for `s2`. -/
theorem C1_witness :
    encodeFavorite bob ∈
      listedRows (getFavoritesBySessionHandler (healthy sampleStore)
        { vars := [("session_id", "s2")] }).w :=
  (C1_list_by_session_is_filter_of_list_all sampleStore
    { vars := [("session_id", "s2")] } {}).2.2.2.2 (encodeFavorite bob)
    (by decide) (by decide)

/-- C9 as stated fails: on the empty table list-all responds 200 with the JSON value
`null`, which is not the empty array. -/
theorem C9_counterexample :
    (getAllFavoritesHandler (healthy emptyStore) {}).w.status = 200 ∧
    (getAllFavoritesHandler (healthy emptyStore) {}).w.body = .json .null ∧
    (getAllFavoritesHandler (healthy emptyStore) {}).w.body ≠ .json (.arr []) := by
  decide

/-- C9 (amended): when no row matches (an empty table for list-all, a session id that
no row carries for list-by-session), the list operation responds 200 with
`Content-Type: application/json` and the body `null`, the encoding of the nil slice
the handler never appended to; it lists no rows and is not an error. -/
theorem C9_empty_result_is_null (store : Store) (r : Request) :
    (store.rows = [] →
      (getAllFavoritesHandler (healthy store) r).w.status = 200 ∧
      (getAllFavoritesHandler (healthy store) r).w.body = .json .null ∧
      (getAllFavoritesHandler (healthy store) r).w.Get "Content-Type" =
        some "application/json") ∧
    ((∀ f ∈ store.rows, f.SessionID ≠ r.Var "session_id") →
      (getFavoritesBySessionHandler (healthy store) r).w.status = 200 ∧
      (getFavoritesBySessionHandler (healthy store) r).w.body = .json .null ∧
      (getFavoritesBySessionHandler (healthy store) r).w.Get "Content-Type" =
        some "application/json") := by
  constructor
  · intro h
    rw [getAll_healthy, h]
    exact ⟨rfl, rfl, rfl⟩
  · intro h
    have hsel : store.selectBySession (r.Var "session_id") = [] := by
      unfold Store.selectBySession
      rw [List.filter_eq_nil_iff]
      intro f hf
      simpa using h f hf
    rw [getBySession_healthy, hsel]
    exact ⟨rfl, rfl, rfl⟩

/-- Witness of the amended C9: the empty store, and the sample store asked for a
session no row carries. -/
theorem C9_witness :
    (getAllFavoritesHandler (healthy emptyStore) {}).w.body = .json .null ∧
    (getFavoritesBySessionHandler (healthy sampleStore)
      { vars := [("session_id", "s9")] }).w.body = .json .null :=
  ⟨((C9_empty_result_is_null emptyStore {}).1 rfl).2.1,
   ((C9_empty_result_is_null sampleStore { vars := [("session_id", "s9")] }).2
      (by decide)).2.1⟩

theorem scanLoop_failScanAt (rows : List Favorite) (k : Nat) (msg : String)
    (acc : Option (List Favorite)) (hk : k < rows.length) :
    scanLoop (failScanAt k msg rows) acc = .error msg := by
  induction rows generalizing k acc with
  | nil => simp at hk
  | cons f rest ih =>
    cases k with
    | zero => simp [failScanAt, scanLoop]
    | succ k =>
      simp only [List.length_cons, Nat.add_lt_add_iff_right] at hk
      simp only [failScanAt, scanLoop]
      exact ih k _ hk

/-- The two error checks the list handlers do make: an error reported when the query
is issued, or by the `Scan` of a row of the result set, is answered 500 with the error
text and no rows. -/
theorem list_handlers_query_and_scan_errors (store : Store) (r : Request) (msg : String)
    (k : Nat) :
    (getAllFavoritesHandler ⟨store, .atQuery msg⟩ r).w.status = 500 ∧
    (getAllFavoritesHandler ⟨store, .atQuery msg⟩ r).w.body = .text (.msg msg) ∧
    (getFavoritesBySessionHandler ⟨store, .atQuery msg⟩ r).w.status = 500 ∧
    (getFavoritesBySessionHandler ⟨store, .atQuery msg⟩ r).w.body = .text (.msg msg) ∧
    (k < store.rows.length →
      (getAllFavoritesHandler ⟨store, .atScan k msg⟩ r).w.status = 500 ∧
      (getAllFavoritesHandler ⟨store, .atScan k msg⟩ r).w.body = .text (.msg msg)) ∧
    (k < (store.selectBySession (r.Var "session_id")).length →
      (getFavoritesBySessionHandler ⟨store, .atScan k msg⟩ r).w.status = 500 ∧
      (getFavoritesBySessionHandler ⟨store, .atScan k msg⟩ r).w.body = .text (.msg msg)) := by
  refine ⟨rfl, rfl, rfl, rfl, ?_, ?_⟩
  · intro hk
    have h := scanLoop_failScanAt store.rows k msg none hk
    simp only [getAllFavoritesHandler, DB.Query, Store.selectAll, h]
    exact ⟨rfl, rfl⟩
  · intro hk
    have h := scanLoop_failScanAt _ k msg none hk
    simp only [getFavoritesBySessionHandler, DB.Query, h]
    exact ⟨rfl, rfl⟩

/-- C7 fails on the code: when iteration breaks after the first of two rows was
delivered (`rows.Next` returns false and `rows.Err()` holds the error), both list
handlers respond 200 with the one row read so far instead of 500 (the sample store
holds three rows, two of them of session `s1`). -/
theorem C7_partial_rows_returned_on_iteration_error :
    (getAllFavoritesHandler ⟨sampleStore, .atNext 1 "unexpected EOF"⟩ {}).w.status = 200 ∧
    (getAllFavoritesHandler ⟨sampleStore, .atNext 1 "unexpected EOF"⟩ {}).w.body =
      .json (.arr [encodeFavorite alice]) ∧
    (getFavoritesBySessionHandler ⟨sampleStore, .atNext 1 "unexpected EOF"⟩
      { vars := [("session_id", "s1")] }).w.status = 200 ∧
    (getFavoritesBySessionHandler ⟨sampleStore, .atNext 1 "unexpected EOF"⟩
      { vars := [("session_id", "s1")] }).w.body = .json (.arr [encodeFavorite alice]) := by
  decide

/-- C8 as stated fails: a create request whose body does not decode is answered 400
with `Content-Type: text/plain; charset=utf-8`, not `application/json`. -/
theorem C8_counterexample :
    (createFavoriteHandler (healthy sampleStore) { body := .error "unexpected EOF" }).w.status
      = 400 ∧
    (createFavoriteHandler (healthy sampleStore) { body := .error "unexpected EOF" }).w.Get
      "Content-Type" = some "text/plain; charset=utf-8" ∧
    (createFavoriteHandler (healthy sampleStore) { body := .error "unexpected EOF" }).w.Get
      "Content-Type" ≠ some "application/json" := by
  decide

/-- C8 (amended): every response of the six handlers, on every path, follows
`contentTypeRule`: a 200 response carries `Content-Type: application/json`, the 400,
404 and 500 responses (written by `http.Error` and `http.NotFound`) carry
`Content-Type: text/plain; charset=utf-8`, and the 204 responses carry no
`Content-Type`; only update and delete respond 204, and they never respond 200. -/
theorem C8_content_type_by_status (db : DB) (r : Request) :
    (contentTypeRule (getFavoriteBySessionNameURLHandler db r).w ∧
      (getFavoriteBySessionNameURLHandler db r).w.status ≠ 204) ∧
    (contentTypeRule (getAllFavoritesHandler db r).w ∧
      (getAllFavoritesHandler db r).w.status ≠ 204) ∧
    (contentTypeRule (createFavoriteHandler db r).w ∧
      (createFavoriteHandler db r).w.status ≠ 204) ∧
    (contentTypeRule (getFavoritesBySessionHandler db r).w ∧
      (getFavoritesBySessionHandler db r).w.status ≠ 204) ∧
    (contentTypeRule (updateFavoriteHandler db r).w ∧
      (updateFavoriteHandler db r).w.status ≠ 200) ∧
    (contentTypeRule (deleteFavoriteHandler db r).w ∧
      (deleteFavoriteHandler db r).w.status ≠ 200) := by
  have ok : ∀ v, contentTypeRule
      (jsonEncode ((enableCors {}).Set "Content-Type" "application/json") v) :=
    fun v => Or.inl ⟨rfl, rfl⟩
  have e400 : ∀ t, contentTypeRule (httpError (enableCors {}) t 400) :=
    fun t => Or.inr (Or.inr ⟨Or.inl rfl, rfl⟩)
  have e404 : contentTypeRule (httpNotFound (enableCors {})) :=
    Or.inr (Or.inr ⟨Or.inr (Or.inl rfl), rfl⟩)
  have e500 : ∀ t, contentTypeRule (httpError (enableCors {}) t 500) :=
    fun t => Or.inr (Or.inr ⟨Or.inr (Or.inr rfl), rfl⟩)
  have e204 : contentTypeRule ((enableCors {}).WriteHeader 204) :=
    Or.inr (Or.inl ⟨rfl, rfl⟩)
  refine ⟨?_, ?_, ?_, ?_, ?_, ?_⟩
  · unfold getFavoriteBySessionNameURLHandler
    dsimp only
    split
    · exact ⟨e404, by simp [httpNotFound]⟩
    · exact ⟨e500 _, by simp⟩
    · exact ⟨ok _, by simp⟩
  · unfold getAllFavoritesHandler
    dsimp only
    split
    · exact ⟨e500 _, by simp⟩
    · split
      · exact ⟨e500 _, by simp⟩
      · exact ⟨ok _, by simp⟩
  · unfold createFavoriteHandler
    dsimp only
    split
    · exact ⟨e400 _, by simp⟩
    · split
      · exact ⟨e500 _, by simp⟩
      · split
        · exact ⟨e500 _, by simp⟩
        · split
          · exact ⟨e500 _, by simp⟩
          · exact ⟨ok _, by simp⟩
  · unfold getFavoritesBySessionHandler
    dsimp only
    split
    · exact ⟨e500 _, by simp⟩
    · split
      · exact ⟨e500 _, by simp⟩
      · exact ⟨ok _, by simp⟩
  · unfold updateFavoriteHandler
    dsimp only
    split
    · exact ⟨e400 _, by simp⟩
    · split
      · exact ⟨e400 _, by simp⟩
      · split
        · exact ⟨e500 _, by simp⟩
        · exact ⟨e204, by simp⟩
  · unfold deleteFavoriteHandler
    dsimp only
    split
    · exact ⟨e400 _, by simp⟩
    · split
      · exact ⟨e500 _, by simp⟩
      · exact ⟨e204, by simp⟩

/-- C2: on every store (answering the query without error) and for every triple of
query parameters (`session_id`, `name`, `image_url`), get-favorite responds 404 when no row has `session_id`, `name` and
`img_url` all equal to the parameters, and when exactly one row matches all three it
responds 200 with the JSON body holding only the member `favorite_id`, set to that
row's `favorite_id`; one `SELECT` is issued and the store is unchanged. -/
theorem C2_get_favorite_by_fields (store : Store) (r : Request) :
    ((∀ f ∈ store.rows, ¬(f.SessionID = r.QueryGet "session_id" ∧
        f.Name = r.QueryGet "name" ∧ f.ImgURL = r.QueryGet "image_url")) →
      (getFavoriteBySessionNameURLHandler (healthy store) r).w.status = 404 ∧
      (getFavoriteBySessionNameURLHandler (healthy store) r).w.body =
        .text (.msg "404 page not found")) ∧
    (∀ f, store.rows.filter (fun g => decide (g.SessionID = r.QueryGet "session_id" ∧
        g.Name = r.QueryGet "name" ∧ g.ImgURL = r.QueryGet "image_url")) = [f] →
      (getFavoriteBySessionNameURLHandler (healthy store) r).w.status = 200 ∧
      (getFavoriteBySessionNameURLHandler (healthy store) r).w.body =
        .json (.obj [("favorite_id", .num f.FavoriteID)]) ∧
      (getFavoriteBySessionNameURLHandler (healthy store) r).w.Get "Content-Type" =
        some "application/json") ∧
    (getFavoriteBySessionNameURLHandler (healthy store) r).store = store ∧
    (getFavoriteBySessionNameURLHandler (healthy store) r).stmts =
      [Stmt.selectFavoriteID (r.QueryGet "session_id") (r.QueryGet "name")
        (r.QueryGet "image_url")] := by
  have hsel : store.selectFavoriteID (r.QueryGet "session_id") (r.QueryGet "name")
      (r.QueryGet "image_url") =
      (store.rows.filter (fun g => decide (g.SessionID = r.QueryGet "session_id" ∧
        g.Name = r.QueryGet "name" ∧ g.ImgURL = r.QueryGet "image_url"))).map
        (fun g => g.FavoriteID) := by
    unfold Store.selectFavoriteID
    congr 1
    apply List.filter_congr
    intro g _
    rw [Bool.eq_iff_iff]
    simp [and_assoc]
  refine ⟨?_, ?_, ?_, ?_⟩
  · intro h
    have hnil : store.rows.filter (fun g => decide (g.SessionID = r.QueryGet "session_id" ∧
        g.Name = r.QueryGet "name" ∧ g.ImgURL = r.QueryGet "image_url")) = [] := by
      rw [List.filter_eq_nil_iff]
      intro g hg
      simpa using h g hg
    unfold getFavoriteBySessionNameURLHandler
    dsimp only [healthy_store]
    rw [hsel, hnil]
    exact ⟨rfl, rfl⟩
  · intro f hf
    unfold getFavoriteBySessionNameURLHandler
    dsimp only [healthy_store]
    rw [hsel, hf]
    exact ⟨rfl, rfl, rfl⟩
  · unfold getFavoriteBySessionNameURLHandler
    dsimp only
    split <;> rfl
  · unfold getFavoriteBySessionNameURLHandler
    dsimp only
    split <;> rfl

/-- Witness of C2 on the sample store: a triple no row matches, and the triple of the
first sample row. -/
theorem C2_witness :
    (getFavoriteBySessionNameURLHandler (healthy sampleStore)
      { query := [("session_id", "s1"), ("name", "Alice")] }).w.status = 404 ∧
    (getFavoriteBySessionNameURLHandler (healthy sampleStore)
      { query := [("session_id", "s1"), ("name", "Alice"),
                  ("image_url", "http://x/img.png")] }).w.body =
      .json (.obj [("favorite_id", .num 1)]) :=
  ⟨((C2_get_favorite_by_fields sampleStore
      { query := [("session_id", "s1"), ("name", "Alice")] }).1 (by decide)).1,
   ((C2_get_favorite_by_fields sampleStore
      { query := [("session_id", "s1"), ("name", "Alice"),
                  ("image_url", "http://x/img.png")] }).2.1 alice (by decide)).2.1⟩

/-- C4: on every store (executing the statement without error), for every id segment
that parses to the number `id` and every body that decodes to the field set F, update
responds 204 and issues one `UPDATE`
bound to F and `id`; the table keeps its rows in place, every row keeps its
`favorite_id`, a row whose `favorite_id` is `id` afterwards holds exactly the five
other fields of F (the `favorite_id` of the body is not applied), every other row is
unchanged, and when no row has that id the store is unchanged. -/
theorem C4_update_replaces_fields (store : Store) (r : Request) (F : Favorite) (id : Int)
    (hid : Atoi IntSize (r.Var "id") = .ok id) (hbody : r.body = .ok F) :
    (updateFavoriteHandler (healthy store) r).w.status = 204 ∧
    (updateFavoriteHandler (healthy store) r).stmts =
      [Stmt.update F.SessionID F.UserName F.Name F.ProfessionalHeadline F.ImgURL id] ∧
    (updateFavoriteHandler (healthy store) r).store.rows.length = store.rows.length ∧
    (updateFavoriteHandler (healthy store) r).store.nextId = store.nextId ∧
    (∀ (i : Nat) (old : Favorite), store.rows[i]? = some old →
      ∃ new, (updateFavoriteHandler (healthy store) r).store.rows[i]? = some new ∧
        new.FavoriteID = old.FavoriteID ∧
        (old.FavoriteID = id →
          new = ⟨id, F.SessionID, F.UserName, F.Name, F.ProfessionalHeadline, F.ImgURL⟩) ∧
        (old.FavoriteID ≠ id → new = old)) ∧
    ((∀ f ∈ store.rows, f.FavoriteID ≠ id) →
      (updateFavoriteHandler (healthy store) r).store = store) := by
  have hrun : updateFavoriteHandler (healthy store) r =
      ⟨(enableCors {}).WriteHeader 204,
        store.update F.SessionID F.UserName F.Name F.ProfessionalHeadline F.ImgURL id,
        [Stmt.update F.SessionID F.UserName F.Name F.ProfessionalHeadline F.ImgURL id],
        true⟩ := by
    unfold updateFavoriteHandler
    simp only [hid, hbody, healthy_store]
    rfl
  rw [hrun]
  refine ⟨rfl, rfl, by simp [Store.update], rfl, ?_, ?_⟩
  · intro i old hold
    by_cases h : old.FavoriteID = id
    · refine ⟨⟨id, F.SessionID, F.UserName, F.Name, F.ProfessionalHeadline, F.ImgURL⟩,
        ?_, h.symm, fun _ => rfl, fun hne => absurd h hne⟩
      simp [Store.update, List.getElem?_map, hold, h]
    · refine ⟨old, ?_, rfl, fun he => absurd he h, fun _ => rfl⟩
      simp [Store.update, List.getElem?_map, hold, h]
  · intro hno
    have hmap : store.rows.map (fun f =>
        if f.FavoriteID = id then
          { f with SessionID := F.SessionID, UserName := F.UserName, Name := F.Name,
                   ProfessionalHeadline := F.ProfessionalHeadline, ImgURL := F.ImgURL }
        else f) = store.rows := by
      conv_rhs => rw [← List.map_id store.rows]
      apply List.map_congr_left
      intro f hf
      simp [hno f hf]
    simp only [Store.update, hmap]

/-- Witness of C4 on the sample store: updating id 2 with a body that carries
`favorite_id` 77 responds 204. -/
theorem C4_witness :
    (updateFavoriteHandler (healthy sampleStore)
      { vars := [("id", "2")], body := .ok carol }).w.status = 204 :=
  (C4_update_replaces_fields sampleStore { vars := [("id", "2")], body := .ok carol }
    carol 2 rfl rfl).1

/-- C5: on every store (executing the statement without error) and for every id
segment that parses to the number `id`, delete responds 204 whether or not a row with that id exists and issues one `DELETE` bound
to `id`; afterwards no row of the store, and no row listed by list-all, has
`favorite_id = id`, while every row with another id is still there (so a store
without such a row is unchanged); a second delete with the same id again responds 204
and leaves the store as it was after the first. -/
theorem C5_delete_is_idempotent (store : Store) (r r0 : Request) (id : Int)
    (hid : Atoi IntSize (r.Var "id") = .ok id) :
    (deleteFavoriteHandler (healthy store) r).w.status = 204 ∧
    (deleteFavoriteHandler (healthy store) r).stmts = [Stmt.delete id] ∧
    (∀ f ∈ (deleteFavoriteHandler (healthy store) r).store.rows, f.FavoriteID ≠ id) ∧
    (∀ f ∈ store.rows, f.FavoriteID ≠ id →
      f ∈ (deleteFavoriteHandler (healthy store) r).store.rows) ∧
    ((∀ f ∈ store.rows, f.FavoriteID ≠ id) →
      (deleteFavoriteHandler (healthy store) r).store = store) ∧
    (∀ o ∈ listedRows (getAllFavoritesHandler
        (healthy (deleteFavoriteHandler (healthy store) r).store) r0).w,
      o.lookup "favorite_id" ≠ some (.num id)) ∧
    (deleteFavoriteHandler
      (healthy (deleteFavoriteHandler (healthy store) r).store) r).w.status = 204 ∧
    (deleteFavoriteHandler
      (healthy (deleteFavoriteHandler (healthy store) r).store) r).store =
      (deleteFavoriteHandler (healthy store) r).store := by
  have hrun : ∀ s : Store, deleteFavoriteHandler (healthy s) r =
      ⟨(enableCors {}).WriteHeader 204, s.delete id, [Stmt.delete id], false⟩ := by
    intro s
    unfold deleteFavoriteHandler
    simp only [hid, healthy_store]
    rfl
  rw [hrun store]
  dsimp only
  rw [hrun (store.delete id)]
  dsimp only
  refine ⟨rfl, rfl, ?_, ?_, ?_, ?_, rfl, ?_⟩
  · intro f hf
    simp only [Store.delete, List.mem_filter] at hf
    simpa using hf.2
  · intro f hf hne
    simp only [Store.delete, List.mem_filter]
    exact ⟨hf, by simpa using hne⟩
  · intro hno
    have hfil : store.rows.filter (fun f => f.FavoriteID != id) = store.rows := by
      rw [List.filter_eq_self]
      intro f hf
      simpa using hno f hf
    simp only [Store.delete, hfil]
  · intro o ho
    rw [getAll_healthy] at ho
    simp only [listedRows_encode, List.mem_map] at ho
    obtain ⟨f, hf, rfl⟩ := ho
    simp only [Store.delete, List.mem_filter] at hf
    rw [lookup_favorite_id]
    intro heq
    have h2 : f.FavoriteID ≠ id := by simpa using hf.2
    apply h2
    simpa using heq
  · simp only [Store.delete, List.filter_filter, Bool.and_self]

/-- Witness of C5 on the sample store: deleting id 2 responds 204 and list-all no
longer carries a row with `favorite_id` 2. -/
theorem C5_witness :
    (deleteFavoriteHandler (healthy sampleStore) { vars := [("id", "2")] }).w.status = 204 ∧
    (deleteFavoriteHandler (healthy sampleStore) { vars := [("id", "2")] }).store.rows =
      [alice, dave] :=
  ⟨(C5_delete_is_idempotent sampleStore { vars := [("id", "2")] } {} 2 rfl).1, by decide⟩

/-! ## Lemmas on the router -/

theorem dropLead_append (a p : List Char) : dropLead a (a ++ p) = some p := by
  induction a with
  | nil => cases p <;> rfl
  | cons c a ih => simp [dropLead, ih]

theorem dropLead_append_append (a l p : List Char) :
    dropLead (a ++ l) (a ++ p) = dropLead l p := by
  induction a with
  | nil => rfl
  | cons c a ih => simp [dropLead, ih]

theorem dropLead_eq_some (l p rest : List Char) (h : dropLead l p = some rest) :
    p = l ++ rest := by
  induction l generalizing p with
  | nil =>
    cases p <;> simp [dropLead] at h <;> simp [h]
  | cons c l ih =>
    cases p with
    | nil => simp [dropLead] at h
    | cons d p =>
      by_cases hcd : c = d
      · simp only [dropLead, hcd, if_true] at h
        simp [hcd, ih p h]
      · simp [dropLead, hcd] at h

theorem routerMatch_no_handler (rs : List Route) (req : Request) (mismatch : Bool)
    (h : ∀ route ∈ rs, route.template.matchPath req.path ≠ none →
      route.method ≠ req.method) :
    routerMatch rs req mismatch = .methodMismatch ∨
    routerMatch rs req mismatch = .notFound := by
  induction rs generalizing mismatch with
  | nil =>
    cases mismatch <;> simp [routerMatch]
  | cons route rest ih =>
    have hrest : ∀ route ∈ rest, route.template.matchPath req.path ≠ none →
        route.method ≠ req.method :=
      fun x hx => h x (List.mem_cons_of_mem _ hx)
    unfold routerMatch
    cases hm : route.template.matchPath req.path with
    | none => exact ih mismatch hrest
    | some vars =>
      have hne : route.method ≠ req.method :=
        h route (List.mem_cons_self _ _) (by simp [hm])
      simp only [hne, if_false]
      exact ih true hrest

theorem routerMatch_notFound (rs : List Route) (req : Request)
    (h : ∀ route ∈ rs, route.template.matchPath req.path = none) :
    routerMatch rs req false = .notFound := by
  induction rs with
  | nil => simp [routerMatch]
  | cons route rest ih =>
    unfold routerMatch
    rw [h route (List.mem_cons_self _ _)]
    exact ih fun x hx => h x (List.mem_cons_of_mem _ hx)

theorem matchPath_collection (seg : String) (path : String)
    (hpath : path = "/favorites/" ++ seg) :
    (⟨"/favorites", none⟩ : Template).matchPath path = none := by
  have hdata : path.data = "/favorites".data ++ ('/' :: seg.data) := by
    rw [hpath, String.data_append]
    rfl
  unfold Template.matchPath
  simp only [hdata, dropLead_append]
  simp

theorem matchPath_id (seg : String) (path : String)
    (hpath : path = "/favorites/" ++ seg)
    (hseg : ¬(seg.data ≠ [] ∧ seg.data.all isDigit = true)) :
    (⟨"/favorites/", some ("id", isDigit)⟩ : Template).matchPath path = none := by
  have hdata : path.data = "/favorites/".data ++ seg.data := by
    rw [hpath, String.data_append]
  unfold Template.matchPath
  simp only [hdata, dropLead_append]
  simp only [hseg, if_false]

theorem matchPath_bySession (seg : String) (path : String)
    (hpath : path = "/favorites/" ++ seg)
    (h : (⟨"/favorites/by-session/", some ("session_id", notSlash)⟩ : Template).matchPath path
      ≠ none) :
    '/' ∈ seg.data := by
  have hdata : path.data = "/favorites/".data ++ seg.data := by
    rw [hpath, String.data_append]
  have hlit : "/favorites/by-session/".data = "/favorites/".data ++ "by-session/".data := rfl
  unfold Template.matchPath at h
  rw [hdata, hlit, dropLead_append_append] at h
  cases hd : dropLead "by-session/".data seg.data with
  | none => simp [hd] at h
  | some rest =>
    rw [dropLead_eq_some _ _ _ hd]
    simp

theorem matchPath_getFavorite (seg : String) (path : String)
    (hpath : path = "/favorites/" ++ seg)
    (h : (⟨"/favorites/get-favorite", none⟩ : Template).matchPath path ≠ none) :
    seg = "get-favorite" := by
  have hdata : path.data = "/favorites/".data ++ seg.data := by
    rw [hpath, String.data_append]
  have hlit : "/favorites/get-favorite".data = "/favorites/".data ++ "get-favorite".data := rfl
  unfold Template.matchPath at h
  rw [hdata, hlit, dropLead_append_append] at h
  cases hd : dropLead "get-favorite".data seg.data with
  | none => simp [hd] at h
  | some rest =>
    have hseg := dropLead_eq_some _ _ _ hd
    by_cases hrest : rest = []
    · rw [hrest, List.append_nil] at hseg
      exact String.ext hseg
    · simp [hd, hrest] at h

theorem splitSlash_noSlash (l : List Char) (h : '/' ∉ l) : splitSlash l = [l] := by
  induction l with
  | nil => rfl
  | cons c cs ih =>
    have hc : c ≠ '/' := fun e => h (by simp [e])
    have hcs : '/' ∉ cs := fun e => h (List.mem_cons_of_mem _ e)
    simp [splitSlash, hc, ih hcs]

theorem isCleanPath_segment (seg : String) (hslash : '/' ∉ seg.data)
    (hdot : seg ≠ ".") (hdots : seg ≠ "..") :
    isCleanPath ("/favorites/" ++ seg).data = true := by
  have h1 : seg.data ≠ ['.'] := fun e => hdot (String.ext e)
  have h2 : seg.data ≠ ['.', '.'] := fun e => hdots (String.ext e)
  have hdata : ("/favorites/" ++ seg).data =
      '/' :: 'f' :: 'a' :: 'v' :: 'o' :: 'r' :: 'i' :: 't' :: 'e' :: 's' :: '/' :: seg.data := by
    rw [String.data_append]
    rfl
  rw [hdata]
  simp [isCleanPath, splitSlash, splitSlash_noSlash _ hslash, cleanSegments, h1, h2]

/-- C6 as stated fails: `PUT /favorites/abc` and `DELETE /favorites/abc` are answered
404 by the router, not 400; no statement is issued. -/
theorem C6_counterexample :
    (ServeHTTP (healthy sampleStore)
      { method := "PUT", path := "/favorites/abc", body := .ok carol }).answer.status?
      = some 404 ∧
    (ServeHTTP (healthy sampleStore)
      { method := "PUT", path := "/favorites/abc", body := .ok carol }).answer.status?
      ≠ some 400 ∧
    (ServeHTTP (healthy sampleStore)
      { method := "DELETE", path := "/favorites/abc" }).answer.status? = some 404 ∧
    (ServeHTTP (healthy sampleStore)
      { method := "DELETE", path := "/favorites/abc" }).answer.status? ≠ some 400 := by
  decide

/-- C6 (amended): a PUT or DELETE request to `/favorites/{id}` whose id segment is not
a non-empty string of decimal digits never reaches `updateFavoriteHandler` or
`deleteFavoriteHandler`: the service as routed in `main` issues no statement, leaves
the store unchanged, does not read the body, and never answers 400. The answer is the
router's 404 (written by `http.NotFound`) for every segment free of slashes other
than `get-favorite`, `.` and `..`; it is 405 for `get-favorite` (a path registered
for GET only) and a redirect to the canonical path for `.` and `..`; in every case it
is 404, 405 or a redirect. -/
theorem C6_non_numeric_id_is_not_routed (db : DB) (req : Request) (seg : String)
    (hmethod : req.method = "PUT" ∨ req.method = "DELETE")
    (hpath : req.path = "/favorites/" ++ seg)
    (hseg : ¬(seg.data ≠ [] ∧ seg.data.all isDigit = true)) :
    (ServeHTTP db req).stmts = [] ∧
    (ServeHTTP db req).store = db.store ∧
    (ServeHTTP db req).bodyRead = false ∧
    (ServeHTTP db req).answer.status? ≠ some 400 ∧
    ((ServeHTTP db req).answer.status? = some 404 ∨
      (ServeHTTP db req).answer.status? = some 405 ∨
      (ServeHTTP db req).answer = .redirect) ∧
    ('/' ∉ seg.data → seg ≠ "." → seg ≠ ".." → seg ≠ "get-favorite" →
      (ServeHTTP db req).answer = .written (httpNotFound {}) ∧
      (ServeHTTP db req).answer.status? = some 404) ∧
    (seg = "get-favorite" → (ServeHTTP db req).answer.status? = some 405) ∧
    (seg = "." ∨ seg = ".." → (ServeHTTP db req).answer = .redirect) := by
  have hput : "GET" ≠ req.method ∧ "POST" ≠ req.method ∧ ¬ req.method = "OPTIONS" := by
    rcases hmethod with h | h <;> rw [h] <;> decide
  have hcoll := matchPath_collection seg req.path hpath
  have hidm := matchPath_id seg req.path hpath hseg
  have hno : ∀ route ∈ main, route.template.matchPath req.path ≠ none →
      route.method ≠ req.method := by
    intro route hroute hm
    simp only [main, List.mem_cons, List.mem_singleton, List.not_mem_nil, or_false] at hroute
    rcases hroute with h | h | h | h | h | h <;> subst h
    · exact hput.1
    · exact hput.1
    · exact hput.2.1
    · exact absurd hidm hm
    · exact absurd hidm hm
    · exact hput.1
  have hshape : ∀ res : Served,
      (res = ⟨.written (({} : ResponseWriter).WriteHeader 405), db.store, [], false⟩ ∨
       res = ⟨.written (httpNotFound {}), db.store, [], false⟩ ∨
       res = ⟨.redirect, db.store, [], false⟩) →
      res.stmts = [] ∧ res.store = db.store ∧ res.bodyRead = false ∧
      res.answer.status? ≠ some 400 ∧
      (res.answer.status? = some 404 ∨ res.answer.status? = some 405 ∨
        res.answer = .redirect) := by
    intro res h
    rcases h with h | h | h <;> subst h
    · exact ⟨rfl, rfl, rfl, by simp [Answer.status?], Or.inr (Or.inl rfl)⟩
    · exact ⟨rfl, rfl, rfl, by simp [Answer.status?, httpNotFound], Or.inl rfl⟩
    · exact ⟨rfl, rfl, rfl, by simp [Answer.status?], Or.inr (Or.inr rfl)⟩
  have hres :
      ServeHTTP db req =
        ⟨.written (({} : ResponseWriter).WriteHeader 405), db.store, [], false⟩ ∨
      ServeHTTP db req = ⟨.written (httpNotFound {}), db.store, [], false⟩ ∨
      ServeHTTP db req = ⟨.redirect, db.store, [], false⟩ := by
    unfold ServeHTTP
    by_cases hclean : isCleanPath req.path.data = true
    · rw [if_pos hclean, if_neg hput.2.2]
      rcases routerMatch_no_handler main req false hno with h | h <;> rw [h]
      · exact Or.inl rfl
      · exact Or.inr (Or.inl rfl)
    · rw [if_neg hclean]
      exact Or.inr (Or.inr rfl)
  obtain ⟨h1, h2, h3, h4, h5⟩ := hshape _ hres
  refine ⟨h1, h2, h3, h4, h5, ?_, ?_, ?_⟩
  · intro hslash hdot hdots hget
    have hclean : isCleanPath req.path.data = true := by
      rw [hpath]
      exact isCleanPath_segment seg hslash hdot hdots
    have hall : ∀ route ∈ main, route.template.matchPath req.path = none := by
      intro route hroute
      simp only [main, List.mem_cons, List.mem_singleton, List.not_mem_nil, or_false] at hroute
      rcases hroute with h | h | h | h | h | h <;> subst h
      · by_contra hm
        exact hslash (matchPath_bySession seg req.path hpath hm)
      · exact hcoll
      · exact hcoll
      · exact hidm
      · exact hidm
      · by_contra hm
        exact hget (matchPath_getFavorite seg req.path hpath hm)
    unfold ServeHTTP
    rw [if_pos hclean, if_neg hput.2.2, routerMatch_notFound main req hall]
    exact ⟨rfl, rfl⟩
  · intro hget
    subst hget
    obtain ⟨method, path, vars, query, body⟩ := req
    simp only at hpath hmethod
    subst hpath
    rcases hmethod with h | h <;> subst h <;> rfl
  · intro hd
    obtain ⟨method, path, vars, query, body⟩ := req
    simp only at hpath
    subst hpath
    rcases hd with h | h <;> subst h <;> rfl

/-- Witness of the amended C6: `PUT /favorites/abc` on the sample store issues no
statement and is answered with the router's 404. -/
theorem C6_witness :
    (ServeHTTP (healthy sampleStore)
      { method := "PUT", path := "/favorites/abc", body := .ok carol }).stmts = [] ∧
    (ServeHTTP (healthy sampleStore)
      { method := "PUT", path := "/favorites/abc", body := .ok carol }).answer =
      .written (httpNotFound {}) :=
  ⟨(C6_non_numeric_id_is_not_routed (healthy sampleStore)
      { method := "PUT", path := "/favorites/abc", body := .ok carol } "abc"
      (Or.inl rfl) rfl (by decide)).1,
   ((C6_non_numeric_id_is_not_routed (healthy sampleStore)
      { method := "PUT", path := "/favorites/abc", body := .ok carol } "abc"
      (Or.inl rfl) rfl (by decide)).2.2.2.2.2.1 (by decide) (by decide) (by decide)
      (by decide)).1⟩

/-! ## Lemmas on `strconv.Atoi` -/

theorem digitVal_le (c : Char) (h : isDigit c = true) : digitVal c ≤ 9 := by
  simp only [isDigit, Bool.and_eq_true, decide_eq_true_eq] at h
  have h0 : '0'.toNat = 48 := rfl
  have h9 : '9'.toNat = 57 := rfl
  unfold digitVal
  omega

theorem foldl_digits_ge (cs : List Char) (n : Nat) :
    n ≤ cs.foldl (fun n c => 10 * n + digitVal c) n := by
  induction cs generalizing n with
  | nil => exact Nat.le_refl n
  | cons c cs ih =>
    simp only [List.foldl_cons]
    have := ih (10 * n + digitVal c)
    omega

theorem foldl_digits_lt (cs : List Char) (n : Nat) (h : cs.all isDigit = true) :
    cs.foldl (fun n c => 10 * n + digitVal c) n < (n + 1) * 10 ^ cs.length := by
  induction cs generalizing n with
  | nil => simp
  | cons c cs ih =>
    simp only [List.all_cons, Bool.and_eq_true] at h
    simp only [List.foldl_cons, List.length_cons]
    have hd := digitVal_le c h.1
    have h1 := ih (10 * n + digitVal c) h.2
    have h3 : (n + 1) * 10 ^ (cs.length + 1) = (10 * n + 10) * 10 ^ cs.length := by ring
    have h2 : (10 * n + digitVal c + 1) * 10 ^ cs.length ≤ (10 * n + 10) * 10 ^ cs.length :=
      Nat.mul_le_mul_right _ (by omega)
    omega

theorem parseUintLoop_digits (cs : List Char) (n : Nat) (h : cs.all isDigit = true)
    (hn : n ≤ 2 ^ 64 - 1) :
    parseUintLoop (2 ^ 64 - 1) cs n =
      if cs.foldl (fun n c => 10 * n + digitVal c) n ≤ 2 ^ 64 - 1 then
        (cs.foldl (fun n c => 10 * n + digitVal c) n, none)
      else (2 ^ 64 - 1, some .errRange) := by
  induction cs generalizing n with
  | nil =>
    simp only [parseUintLoop, List.foldl_nil]
    rw [if_pos hn]
  | cons c cs ih =>
    simp only [List.all_cons, Bool.and_eq_true] at h
    have hd := digitVal_le c h.1
    have hge := foldl_digits_ge cs (10 * n + digitVal c)
    simp only [List.foldl_cons]
    unfold parseUintLoop
    simp only [h.1, if_true]
    norm_num at hn hge ⊢
    by_cases hcut : 1844674407370955162 ≤ n
    · rw [if_pos hcut, if_neg (by omega)]
    · rw [if_neg hcut]
      have h10 : n * 10 % 18446744073709551616 = n * 10 := Nat.mod_eq_of_lt (by omega)
      rw [h10]
      by_cases hov : n * 10 + digitVal c < 18446744073709551616
      · have h1 : (n * 10 + digitVal c) % 18446744073709551616 = n * 10 + digitVal c :=
          Nat.mod_eq_of_lt hov
        rw [h1, if_neg (by omega)]
        have hih := ih (n * 10 + digitVal c) h.2 (by norm_num; omega)
        norm_num at hih
        rw [hih, Nat.mul_comm n 10]
      · have h1 : (n * 10 + digitVal c) % 18446744073709551616 =
            n * 10 + digitVal c - 18446744073709551616 := by
          rw [Nat.mod_eq_sub_mod (by omega)]
          exact Nat.mod_eq_of_lt (by omega)
        rw [h1, if_pos (by omega), if_neg (by omega)]

theorem wrapInt_of_small (x : Int) (h0 : 0 ≤ x) (h1 : x < 2 ^ 63) : wrapInt 64 x = x := by
  unfold wrapInt
  norm_num at h1 ⊢
  omega

theorem atoiFastLoop_digits (cs : List Char) (n : Nat) (h : cs.all isDigit = true)
    (hlt : cs.foldl (fun n c => 10 * n + digitVal c) n < 2 ^ 63) :
    atoiFastLoop 64 cs (n : Int) =
      some ((cs.foldl (fun n c => 10 * n + digitVal c) n : Nat) : Int) := by
  induction cs generalizing n with
  | nil => rfl
  | cons c cs ih =>
    simp only [List.all_cons, Bool.and_eq_true] at h
    simp only [List.foldl_cons] at hlt ⊢
    have hge := foldl_digits_ge cs (10 * n + digitVal c)
    have hlt2 : 10 * n + digitVal c < 2 ^ 63 := Nat.lt_of_le_of_lt hge hlt
    unfold atoiFastLoop
    simp only [h.1, if_true]
    have hw1 : wrapInt 64 ((n : Int) * 10) = (n : Int) * 10 := by
      apply wrapInt_of_small
      · omega
      · norm_num at hlt2 ⊢
        omega
    have hw2 : wrapInt 64 ((n : Int) * 10 + (digitVal c : Int)) =
        (n : Int) * 10 + (digitVal c : Int) := by
      apply wrapInt_of_small
      · omega
      · norm_num at hlt2 ⊢
        omega
    rw [hw1, hw2]
    have hcast : (n : Int) * 10 + (digitVal c : Int) = ((10 * n + digitVal c : Nat) : Int) := by
      push_cast
      ring
    rw [hcast]
    exact ih (10 * n + digitVal c) h.2 hlt

theorem utf8Size_digit (c : Char) (h : isDigit c = true) : c.utf8Size = 1 := by
  simp only [isDigit, Bool.and_eq_true, decide_eq_true_eq] at h
  have h9 : '9'.toNat = 57 := rfl
  have hle : c.val ≤ 0x7F := by
    have : c.val.toNat ≤ 127 := by
      have hc : c.toNat = c.val.toNat := rfl
      omega
    exact this
  simp [Char.utf8Size, hle]

theorem byteLen_digits (cs : List Char) (h : cs.all isDigit = true) :
    byteLen cs = cs.length := by
  induction cs with
  | nil => rfl
  | cons c cs ih =>
    simp only [List.all_cons, Bool.and_eq_true] at h
    simp only [byteLen, List.map_cons, List.sum_cons, List.length_cons] at ih ⊢
    rw [utf8Size_digit c h.1, ih h.2]
    omega

theorem digit_not_sign (c : Char) (h : isDigit c = true) : c ≠ '-' ∧ c ≠ '+' := by
  constructor <;> (intro e; subst e; revert h; decide)

theorem uintMaxVal_64 : uintMaxVal 64 = 2 ^ 64 - 1 := by
  norm_num [uintMaxVal]

theorem ParseUint_digits (cs : List Char) (hne : cs ≠ []) (h : cs.all isDigit = true) :
    ParseUint 64 cs =
      if decimalValue cs ≤ 2 ^ 64 - 1 then (decimalValue cs, none)
      else (2 ^ 64 - 1, some .errRange) := by
  unfold ParseUint
  rw [if_neg hne, uintMaxVal_64, parseUintLoop_digits cs 0 h (Nat.zero_le _)]
  rfl

theorem Atoi_digits (s : String) (hne : s.data ≠ []) (hd : s.data.all isDigit = true) :
    Atoi 64 s =
      if decimalValue s.data ≤ maxInt then .ok ((decimalValue s.data : Nat) : Int)
      else .error ⟨"Atoi", s, .errRange⟩ := by
  obtain ⟨c, cs, hs⟩ := List.exists_cons_of_ne_nil hne
  have hd2 := hd
  rw [hs] at hd2
  simp only [List.all_cons, Bool.and_eq_true] at hd2
  obtain ⟨hm, hp⟩ := digit_not_sign c hd2.1
  have hhm : s.data.head? ≠ some '-' := by simp [hs, hm]
  have hhp : s.data.head? ≠ some '+' := by simp [hs, hp]
  have hbound : decimalValue s.data < (0 + 1) * 10 ^ s.data.length :=
    foldl_digits_lt s.data 0 hd
  have hmax : maxInt = 9223372036854775807 := by norm_num [maxInt]
  unfold Atoi
  dsimp only
  rw [byteLen_digits _ hd]
  by_cases hlen : s.data.length < 19
  · have hpos : 0 < s.data.length := List.length_pos.mpr hne
    rw [if_pos (Or.inr ⟨rfl, hpos, hlen⟩)]
    have hpow : 10 ^ s.data.length ≤ 10 ^ 18 :=
      Nat.pow_le_pow_right (by norm_num) (by omega)
    have hv : decimalValue s.data < 2 ^ 63 := by
      norm_num at hpow hbound ⊢
      omega
    have hfast := atoiFastLoop_digits s.data 0 hd hv
    rw [Nat.cast_zero] at hfast
    simp only [hhm, hhp, or_self, decide_False, if_false, false_and, Bool.false_eq_true]
    rw [hfast, if_pos (by norm_num at hv; omega)]
    rfl
  · rw [if_neg (by omega)]
    unfold ParseInt
    simp only [hne, if_false, hhm, hhp, or_self, decide_False, if_false, false_and,
      Bool.false_eq_true]
    rw [ParseUint_digits s.data hne hd]
    by_cases hfit : decimalValue s.data ≤ 2 ^ 64 - 1
    · rw [if_pos hfit]
      by_cases hint : decimalValue s.data ≤ maxInt
      · have hc : ¬ 9223372036854775808 ≤ decimalValue s.data := by
          rw [hmax] at hint
          omega
        have hw : wrapInt 64 ((decimalValue s.data : Nat) : Int) = decimalValue s.data :=
          wrapInt_of_small _ (by omega) (by norm_num; omega)
        simp [hint, hc, hw]
      · have hc : 9223372036854775808 ≤ decimalValue s.data := by
          rw [hmax] at hint
          omega
        simp [hint, hc]
    · have hint : ¬ decimalValue s.data ≤ maxInt := by
        rw [hmax]
        norm_num at hfit
        omega
      rw [if_neg hfit, if_neg hint]
      simp

/-- C10: for an id segment made of decimal digits only (what the route pattern
`[0-9]+` accepts), (a) when its decimal value does not fit in a Go `int`, update and
delete respond 400 without reading the body, without issuing any statement and
leaving the store unchanged; (b) when it fits, `strconv.Atoi` returns exactly the
decimal value of the string, delete issues the single statement `DELETE` bound to that
value, and update issues the single statement `UPDATE` bound to the decoded fields and
that value (none at all when the body does not decode). -/
theorem C10_id_parsing_bounds (db : DB) (r : Request)
    (hne : (r.Var "id").data ≠ [])
    (hdig : (r.Var "id").data.all isDigit = true) :
    (maxInt < decimalValue (r.Var "id").data →
      (updateFavoriteHandler db r).w.status = 400 ∧
      (updateFavoriteHandler db r).bodyRead = false ∧
      (updateFavoriteHandler db r).stmts = [] ∧
      (updateFavoriteHandler db r).store = db.store ∧
      (deleteFavoriteHandler db r).w.status = 400 ∧
      (deleteFavoriteHandler db r).bodyRead = false ∧
      (deleteFavoriteHandler db r).stmts = [] ∧
      (deleteFavoriteHandler db r).store = db.store) ∧
    (decimalValue (r.Var "id").data ≤ maxInt →
      Atoi IntSize (r.Var "id") = .ok ((decimalValue (r.Var "id").data : Nat) : Int) ∧
      (deleteFavoriteHandler db r).stmts =
        [Stmt.delete ((decimalValue (r.Var "id").data : Nat) : Int)] ∧
      (∀ F : Favorite, r.body = .ok F →
        (updateFavoriteHandler db r).stmts =
          [Stmt.update F.SessionID F.UserName F.Name F.ProfessionalHeadline F.ImgURL
            ((decimalValue (r.Var "id").data : Nat) : Int)]) ∧
      (∀ msg : String, r.body = .error msg → (updateFavoriteHandler db r).stmts = [])) := by
  have hatoi := Atoi_digits (r.Var "id") hne hdig
  constructor
  · intro hbig
    rw [if_neg (by omega)] at hatoi
    have hu : updateFavoriteHandler db r =
        ⟨httpError (enableCors {}) (.numError ⟨"Atoi", r.Var "id", .errRange⟩) 400,
          db.store, [], false⟩ := by
      unfold updateFavoriteHandler
      simp only [IntSize, hatoi]
    have hd : deleteFavoriteHandler db r =
        ⟨httpError (enableCors {}) (.numError ⟨"Atoi", r.Var "id", .errRange⟩) 400,
          db.store, [], false⟩ := by
      unfold deleteFavoriteHandler
      simp only [IntSize, hatoi]
    rw [hu, hd]
    exact ⟨rfl, rfl, rfl, rfl, rfl, rfl, rfl, rfl⟩
  · intro hfit
    rw [if_pos hfit] at hatoi
    refine ⟨hatoi, ?_, ?_, ?_⟩
    · unfold deleteFavoriteHandler
      simp only [IntSize, hatoi]
      split <;> rfl
    · intro F hF
      unfold updateFavoriteHandler
      simp only [IntSize, hatoi, hF]
      split <;> rfl
    · intro msg hmsg
      unfold updateFavoriteHandler
      simp only [IntSize, hatoi, hmsg]

/-- Witness of C10: a string of twenty nines is refused with 400, and the id `42` is
bound as the number 42. -/
theorem C10_witness :
    (deleteFavoriteHandler (healthy sampleStore)
      { vars := [("id", "99999999999999999999")] }).w.status = 400 ∧
    (deleteFavoriteHandler (healthy sampleStore) { vars := [("id", "42")] }).stmts =
      [Stmt.delete ((decimalValue "42".data : Nat) : Int)] :=
  ⟨((C10_id_parsing_bounds (healthy sampleStore)
      { vars := [("id", "99999999999999999999")] } (by decide) (by decide)).1
      (by decide)).2.2.2.2.1,
   ((C10_id_parsing_bounds (healthy sampleStore) { vars := [("id", "42")] }
      (by decide) (by decide)).2 (by decide)).2.1⟩

end BackTorre
